import Mathlib

/-!
# TLS configuration helpers of etcd-wrapper (`internal/util/tls.go`)

A shallow embedding of `CreateCACertPool` and `CreateTLSConfig`.

* Go's `(value, error)` results are pairs whose components can each be nil
  (`Option`), so that "no configuration together with an error" is a property
  of the code and not of the result type.
* The standard-library functions the file calls (`os.ReadFile`,
  `x509.NewCertPool`, `(*CertPool).AppendCertsFromPEM`, `tls.X509KeyPair`)
  are parameters, collected in `Stdlib`.
* Effects are explicit state passing over `World`: the caller's environment
  (which the decision callback may change and on which the filesystem
  depends), the log of paths handed to `os.ReadFile`, and the number of
  invocations of the decision callback.
-/

namespace EtcdWrapper.Util

/-- Go's `[]byte`. -/
abbrev Bytes := List UInt8

/-- The standard-library operations used by `tls.go`, over an environment `σ`,
an error type `ε`, the certificate pool type `Pool` (`x509.CertPool`) and the
client identity type `Cert` (`tls.Certificate`). -/
structure Stdlib (σ ε Pool Cert : Type) where
  /-- What `os.ReadFile(name)` returns in the environment: data and error. -/
  readFile : σ → String → Bytes × Option ε
  /-- The pool made by `x509.NewCertPool()`. -/
  newCertPool : Pool
  /-- The pool after `pool.AppendCertsFromPEM(pem)` and the reported `ok`. -/
  appendCertsFromPEM : Pool → Bytes → Pool × Bool
  /-- The result of `tls.X509KeyPair(certPEMBlock, keyPEMBlock)`. -/
  x509KeyPair : Bytes → Bytes → Cert × Option ε
  /-- The zero value `tls.Certificate{}`. -/
  zeroCertificate : Cert

/-- The observable state around one call. -/
structure World (σ : Type) where
  /-- The caller's environment, filesystem included. -/
  env : σ
  /-- Paths passed to `os.ReadFile`, oldest first. -/
  reads : List String
  /-- Number of invocations of the decision callback. -/
  calls : Nat

/-- The type `IsTLSEnabledFn func() bool`: a callback that returns a boolean
and may change the caller's environment. -/
abbrev IsTLSEnabledFn (σ : Type) := σ → Bool × σ

/-- The struct `KeyPair`: the paths of the certificate and of the private key. -/
structure KeyPair where
  CertPath : String
  KeyPath : String
deriving DecidableEq, Repr

/-- The fields of `tls.Config` that `tls.go` touches. `RootCAs` is a pointer
(`*x509.CertPool`), `Certificates` a slice. -/
structure Config (Pool Cert : Type) where
  RootCAs : Option Pool
  ServerName : String
  Certificates : List Cert
  InsecureSkipVerify : Bool
deriving DecidableEq, Repr

/-- The zero value `tls.Config{}`. -/
def Config.zero {Pool Cert : Type} : Config Pool Cert :=
  { RootCAs := none, ServerName := "", Certificates := [], InsecureSkipVerify := false }

section Code

variable {σ ε Pool Cert : Type}

/-- One invocation `tlsEnabledFn()`: the callback runs on the environment and
the invocation is counted. -/
def invoke (tlsEnabledFn : IsTLSEnabledFn σ) (w : World σ) : Bool × World σ :=
  ((tlsEnabledFn w.env).1, { w with env := (tlsEnabledFn w.env).2, calls := w.calls + 1 })

/-- The call `os.ReadFile(name)`: the path is appended to the read log. -/
def osReadFile (L : Stdlib σ ε Pool Cert) (name : String) (w : World σ) :
    (Bytes × Option ε) × World σ :=
  (L.readFile w.env name, { w with reads := w.reads ++ [name] })

/-- The standard library's `tls.LoadX509KeyPair(certFile, keyFile)`: read the
certificate file, then the key file, then pair them with `tls.X509KeyPair`;
the first read error is returned. -/
def LoadX509KeyPair (L : Stdlib σ ε Pool Cert) (certFile keyFile : String) (w : World σ) :
    (Cert × Option ε) × World σ :=
  match osReadFile L certFile w with
  | ((_, some err), w1) => ((L.zeroCertificate, some err), w1)
  | ((certPEMBlock, none), w1) =>
    match osReadFile L keyFile w1 with
    | ((_, some err), w2) => ((L.zeroCertificate, some err), w2)
    | ((keyPEMBlock, none), w2) => (L.x509KeyPair certPEMBlock keyPEMBlock, w2)

/-- The function `CreateCACertPool` (tls.go, lines 24-32). -/
def CreateCACertPool (L : Stdlib σ ε Pool Cert) (caCertBundlePath : String) (w : World σ) :
    (Option Pool × Option ε) × World σ :=
  match osReadFile L caCertBundlePath w with
  | ((_, some err), w1) => ((none, some err), w1)
  | ((caCertBundle, none), w1) =>
    let caCertPool := L.newCertPool
    let caCertPool := (L.appendCertsFromPEM caCertPool caCertBundle).1
    ((some caCertPool, none), w1)

/-- The function `CreateTLSConfig` (tls.go, lines 47-68). -/
def CreateTLSConfig (L : Stdlib σ ε Pool Cert) (tlsEnabledFn : IsTLSEnabledFn σ)
    (serverName caCertPath : String) (keyPair : Option KeyPair) (w : World σ) :
    (Option (Config Pool Cert) × Option ε) × World σ :=
  let tlsConf : Config Pool Cert := Config.zero
  match invoke tlsEnabledFn w with
  | (false, w1) =>
    let tlsConf := { tlsConf with InsecureSkipVerify := true }
    ((some tlsConf, none), w1)
  | (true, w1) =>
    match CreateCACertPool L caCertPath w1 with
    | ((_, some err), w2) => ((none, some err), w2)
    | ((caCertPool, none), w2) =>
      let tlsConf := { tlsConf with RootCAs := caCertPool }
      let tlsConf := { tlsConf with ServerName := serverName }
      match keyPair with
      | some kp =>
        match LoadX509KeyPair L kp.CertPath kp.KeyPath w2 with
        | ((_, some err), w3) => ((none, some err), w3)
        | ((certificate, none), w3) =>
          let tlsConf := { tlsConf with Certificates := [certificate] }
          ((some tlsConf, none), w3)
      | none => ((some tlsConf, none), w2)

end Code

/-! ## A small concrete standard library, used to evaluate the code -/

/-- A filesystem as an association list from paths to contents. -/
abbrev ToyFS := List (String × Bytes)

/-- A toy `Stdlib`: a missing path is an error, a non-empty PEM block is one
certificate, and a certificate pairs with a key of the same content. -/
def toyLib : Stdlib ToyFS String (List Bytes) (Bytes × Bytes) where
  readFile := fun fs name =>
    match fs.lookup name with
    | some data => (data, none)
    | none => ([], some ("open " ++ name ++ ": no such file or directory"))
  newCertPool := []
  appendCertsFromPEM := fun pool pem =>
    if pem = [] then (pool, false) else (pool ++ [pem], true)
  x509KeyPair := fun certPEMBlock keyPEMBlock =>
    if certPEMBlock = keyPEMBlock then ((certPEMBlock, keyPEMBlock), none)
    else (([], []), some "tls: private key does not match public key")
  zeroCertificate := ([], [])

/-- A filesystem with a CA bundle, an empty file, and a matching and a
non-matching client key. -/
def toyFS : ToyFS :=
  [("/etc/ca.pem", [1, 2, 3]), ("/etc/empty.pem", []), ("/etc/client.crt", [7, 7]),
   ("/etc/client.key", [7, 7]), ("/etc/other.key", [9])]

/-- A starting world over `toyFS` with one earlier read and two earlier calls. -/
def toyWorld : World ToyFS := { env := toyFS, reads := ["/earlier"], calls := 2 }

/-- A decision callback that enables TLS. -/
def tlsOn : IsTLSEnabledFn ToyFS := fun env => (true, env)

/-- A decision callback that disables TLS and removes every file. -/
def tlsOff : IsTLSEnabledFn ToyFS := fun _ => (false, [])

/-! ## Lemmas on the helper calls -/

section Lemmas

variable {σ ε Pool Cert : Type}

/-- The result and the final world of `CreateCACertPool`, by the outcome of the read. -/
theorem CreateCACertPool_eq (L : Stdlib σ ε Pool Cert) (path : String) (w : World σ) :
    CreateCACertPool L path w =
      (match (L.readFile w.env path).2 with
        | some err => (none, some err)
        | none => (some (L.appendCertsFromPEM L.newCertPool (L.readFile w.env path).1).1, none),
       { w with reads := w.reads ++ [path] }) := by
  unfold CreateCACertPool osReadFile
  rcases h : L.readFile w.env path with ⟨data, _ | err⟩ <;> simp

/-- What `CreateCACertPool` returns depends on the environment only. -/
theorem CreateCACertPool_result_env (L : Stdlib σ ε Pool Cert) (path : String)
    (w w0 : World σ) (h : w.env = w0.env) :
    (CreateCACertPool L path w).1 = (CreateCACertPool L path w0).1 := by
  simp [CreateCACertPool_eq, h]

/-- What `LoadX509KeyPair` returns depends on the environment only. -/
theorem LoadX509KeyPair_result_env (L : Stdlib σ ε Pool Cert) (certFile keyFile : String)
    (w w0 : World σ) (h : w.env = w0.env) :
    (LoadX509KeyPair L certFile keyFile w).1 = (LoadX509KeyPair L certFile keyFile w0).1 := by
  unfold LoadX509KeyPair osReadFile
  rw [h]
  rcases h1 : L.readFile w0.env certFile with ⟨d1, _ | e1⟩
  · rcases h2 : L.readFile w0.env keyFile with ⟨d2, _ | e2⟩ <;> simp [h2]
  · simp

/-- The call `LoadX509KeyPair` leaves the environment and the call counter alone. -/
theorem LoadX509KeyPair_frame (L : Stdlib σ ε Pool Cert) (certFile keyFile : String)
    (w : World σ) :
    (LoadX509KeyPair L certFile keyFile w).2.env = w.env ∧
      (LoadX509KeyPair L certFile keyFile w).2.calls = w.calls := by
  unfold LoadX509KeyPair osReadFile
  rcases h1 : L.readFile w.env certFile with ⟨d1, _ | e1⟩
  · rcases h2 : L.readFile w.env keyFile with ⟨d2, _ | e2⟩ <;> simp [h2]
  · simp

/-- The code of `CreateTLSConfig` when the callback returns false. -/
theorem CreateTLSConfig_off (L : Stdlib σ ε Pool Cert) (f : IsTLSEnabledFn σ)
    (serverName caCertPath : String) (keyPair : Option KeyPair) (w : World σ)
    (hoff : (f w.env).1 = false) :
    CreateTLSConfig L f serverName caCertPath keyPair w =
      ((some { RootCAs := none, ServerName := "", Certificates := [],
               InsecureSkipVerify := true }, none),
       { env := (f w.env).2, reads := w.reads, calls := w.calls + 1 }) := by
  simp [CreateTLSConfig, invoke, hoff, Config.zero]

/-- The code of `CreateTLSConfig` when the callback returns true and the CA
bundle cannot be read. -/
theorem CreateTLSConfig_caFail (L : Stdlib σ ε Pool Cert) (f : IsTLSEnabledFn σ)
    (serverName caCertPath : String) (keyPair : Option KeyPair) (w : World σ) (e : ε)
    (hon : (f w.env).1 = true) (hread : (L.readFile (f w.env).2 caCertPath).2 = some e) :
    CreateTLSConfig L f serverName caCertPath keyPair w =
      ((none, some e),
       { env := (f w.env).2, reads := w.reads ++ [caCertPath], calls := w.calls + 1 }) := by
  simp [CreateTLSConfig, invoke, hon, CreateCACertPool_eq, hread]

/-- The code of `CreateTLSConfig` when the callback returns true, the CA
bundle is read and a key pair is given: the outcome is that of
`LoadX509KeyPair` after the CA read. -/
theorem CreateTLSConfig_keyPair (L : Stdlib σ ε Pool Cert) (f : IsTLSEnabledFn σ)
    (serverName caCertPath : String) (kp : KeyPair) (w : World σ)
    (hon : (f w.env).1 = true) (hread : (L.readFile (f w.env).2 caCertPath).2 = none) :
    CreateTLSConfig L f serverName caCertPath (some kp) w =
      ((match (LoadX509KeyPair L kp.CertPath kp.KeyPath
                { env := (f w.env).2, reads := w.reads ++ [caCertPath],
                  calls := w.calls + 1 }).1 with
        | (_, some err) => (none, some err)
        | (certificate, none) =>
          (some { RootCAs := some (L.appendCertsFromPEM L.newCertPool
                      (L.readFile (f w.env).2 caCertPath).1).1,
                  ServerName := serverName, Certificates := [certificate],
                  InsecureSkipVerify := false }, none)),
       (LoadX509KeyPair L kp.CertPath kp.KeyPath
          { env := (f w.env).2, reads := w.reads ++ [caCertPath], calls := w.calls + 1 }).2) := by
  simp only [CreateTLSConfig, invoke, hon, CreateCACertPool_eq, hread, Config.zero]
  rcases LoadX509KeyPair L kp.CertPath kp.KeyPath
      { env := (f w.env).2, reads := w.reads ++ [caCertPath], calls := w.calls + 1 }
    with ⟨⟨c, _ | e⟩, w3⟩ <;> rfl

/-- The code of `CreateTLSConfig` when the callback returns true, the CA
bundle is read and no key pair is given. -/
theorem CreateTLSConfig_noKeyPair (L : Stdlib σ ε Pool Cert) (f : IsTLSEnabledFn σ)
    (serverName caCertPath : String) (w : World σ)
    (hon : (f w.env).1 = true) (hread : (L.readFile (f w.env).2 caCertPath).2 = none) :
    CreateTLSConfig L f serverName caCertPath none w =
      ((some { RootCAs := some (L.appendCertsFromPEM L.newCertPool
                    (L.readFile (f w.env).2 caCertPath).1).1,
               ServerName := serverName, Certificates := [],
               InsecureSkipVerify := false }, none),
       { env := (f w.env).2, reads := w.reads ++ [caCertPath], calls := w.calls + 1 }) := by
  simp [CreateTLSConfig, invoke, hon, CreateCACertPool_eq, hread, Config.zero]

end Lemmas

/-! ## The claims -/

section Claims

variable {σ ε Pool Cert : Type}

/-- Claim C1. When the decision function returns false, `CreateTLSConfig`
returns a nil error and a configuration with `InsecureSkipVerify` true and
`RootCAs`, `ServerName`, `Certificates` at their zero values, for every
server name, CA path, key pair (absent or present) and environment. -/
theorem CreateTLSConfig_disabled_config (L : Stdlib σ ε Pool Cert) (f : IsTLSEnabledFn σ)
    (serverName caCertPath : String) (keyPair : Option KeyPair) (w : World σ)
    (hoff : (f w.env).1 = false) :
    (CreateTLSConfig L f serverName caCertPath keyPair w).1 =
      (some { RootCAs := none, ServerName := "", Certificates := [],
              InsecureSkipVerify := true }, none) := by
  rw [CreateTLSConfig_off L f serverName caCertPath keyPair w hoff]

/-- Witness of C1: TLS disabled, with a CA path and key pair paths that do not exist. -/
theorem CreateTLSConfig_disabled_config_witness :
    (tlsOff toyWorld.env).1 = false ∧
    (CreateTLSConfig toyLib tlsOff "db.internal" "/nope/ca.pem"
        (some { CertPath := "/nope/c.crt", KeyPath := "/nope/c.key" }) toyWorld).1 =
      (some { RootCAs := none, ServerName := "", Certificates := [],
              InsecureSkipVerify := true }, none) :=
  ⟨rfl, CreateTLSConfig_disabled_config toyLib tlsOff "db.internal" "/nope/ca.pem"
    (some { CertPath := "/nope/c.crt", KeyPath := "/nope/c.key" }) toyWorld rfl⟩

/-- Claim C2. When the decision function returns true, the CA bundle is read
without error and no key pair is given, `CreateTLSConfig` returns a nil error
and a configuration with `InsecureSkipVerify` false, `ServerName` equal to the
argument, `RootCAs` equal to the pool `CreateCACertPool` returns for the CA
path (under any read log and call count), and `Certificates` empty. -/
theorem CreateTLSConfig_enabled_noKeyPair (L : Stdlib σ ε Pool Cert) (f : IsTLSEnabledFn σ)
    (serverName caCertPath : String) (w : World σ) (rs : List String) (n : Nat)
    (hon : (f w.env).1 = true)
    (hread : (L.readFile (f w.env).2 caCertPath).2 = none) :
    (CreateTLSConfig L f serverName caCertPath none w).1 =
      (some { RootCAs := (CreateCACertPool L caCertPath
                            { env := (f w.env).2, reads := rs, calls := n }).1.1,
              ServerName := serverName, Certificates := [],
              InsecureSkipVerify := false }, none) := by
  rw [CreateTLSConfig_noKeyPair L f serverName caCertPath w hon hread]
  simp [CreateCACertPool_eq, hread]

/-- Witness of C2: TLS enabled, a readable CA bundle, no key pair. -/
theorem CreateTLSConfig_enabled_noKeyPair_witness :
    (tlsOn toyWorld.env).1 = true ∧
    (toyLib.readFile (tlsOn toyWorld.env).2 "/etc/ca.pem").2 = none ∧
    (CreateTLSConfig toyLib tlsOn "db.internal" "/etc/ca.pem" none toyWorld).1 =
      (some { RootCAs := (CreateCACertPool toyLib "/etc/ca.pem"
                            { env := (tlsOn toyWorld.env).2, reads := [], calls := 0 }).1.1,
              ServerName := "db.internal", Certificates := [],
              InsecureSkipVerify := false }, none) :=
  ⟨rfl, by decide,
    CreateTLSConfig_enabled_noKeyPair toyLib tlsOn "db.internal" "/etc/ca.pem" toyWorld [] 0
      rfl (by decide)⟩

/-- Claim C3. When the decision function returns true and reading the CA
bundle fails with error `e`, `CreateTLSConfig` returns a nil configuration
and exactly the error `e`, whatever the server name and the key pair. -/
theorem CreateTLSConfig_caReadError (L : Stdlib σ ε Pool Cert) (f : IsTLSEnabledFn σ)
    (serverName caCertPath : String) (keyPair : Option KeyPair) (w : World σ) (e : ε)
    (hon : (f w.env).1 = true)
    (hread : (L.readFile (f w.env).2 caCertPath).2 = some e) :
    (CreateTLSConfig L f serverName caCertPath keyPair w).1 = (none, some e) := by
  rw [CreateTLSConfig_caFail L f serverName caCertPath keyPair w e hon hread]

/-- Witness of C3: TLS enabled and a CA bundle path that does not exist. -/
theorem CreateTLSConfig_caReadError_witness :
    (tlsOn toyWorld.env).1 = true ∧
    (toyLib.readFile (tlsOn toyWorld.env).2 "/nope/ca.pem").2 =
      some "open /nope/ca.pem: no such file or directory" ∧
    (CreateTLSConfig toyLib tlsOn "db.internal" "/nope/ca.pem" none toyWorld).1 =
      (none, some "open /nope/ca.pem: no such file or directory") :=
  ⟨rfl, by decide,
    CreateTLSConfig_caReadError toyLib tlsOn "db.internal" "/nope/ca.pem" none toyWorld
      "open /nope/ca.pem: no such file or directory" rfl (by decide)⟩

/-- Claim C4. When the decision function returns true, the CA bundle is read
without error, and a key pair is given whose loading from `(CertPath, KeyPath)`
fails with error `e`, `CreateTLSConfig` returns a nil configuration and the
error `e`. -/
theorem CreateTLSConfig_keyPairError (L : Stdlib σ ε Pool Cert) (f : IsTLSEnabledFn σ)
    (serverName caCertPath : String) (kp : KeyPair) (w : World σ) (e : ε)
    (rs : List String) (n : Nat)
    (hon : (f w.env).1 = true)
    (hread : (L.readFile (f w.env).2 caCertPath).2 = none)
    (hload : (LoadX509KeyPair L kp.CertPath kp.KeyPath
                { env := (f w.env).2, reads := rs, calls := n }).1.2 = some e) :
    (CreateTLSConfig L f serverName caCertPath (some kp) w).1 = (none, some e) := by
  rw [CreateTLSConfig_keyPair L f serverName caCertPath kp w hon hread]
  rw [LoadX509KeyPair_result_env L kp.CertPath kp.KeyPath
        { env := (f w.env).2, reads := rs, calls := n }
        { env := (f w.env).2, reads := w.reads ++ [caCertPath], calls := w.calls + 1 } rfl]
    at hload
  rcases hr : (LoadX509KeyPair L kp.CertPath kp.KeyPath
      { env := (f w.env).2, reads := w.reads ++ [caCertPath], calls := w.calls + 1 }).1
    with ⟨c, _ | e0⟩
  · rw [hr] at hload; cases hload
  · rw [hr] at hload; cases hload; rfl

/-- Witness of C4: TLS enabled, a readable CA bundle, and a certificate with
a key that does not match it. -/
theorem CreateTLSConfig_keyPairError_witness :
    (tlsOn toyWorld.env).1 = true ∧
    (toyLib.readFile (tlsOn toyWorld.env).2 "/etc/ca.pem").2 = none ∧
    (LoadX509KeyPair toyLib "/etc/client.crt" "/etc/other.key"
        { env := (tlsOn toyWorld.env).2, reads := [], calls := 0 }).1.2 =
      some "tls: private key does not match public key" ∧
    (CreateTLSConfig toyLib tlsOn "db.internal" "/etc/ca.pem"
        (some { CertPath := "/etc/client.crt", KeyPath := "/etc/other.key" }) toyWorld).1 =
      (none, some "tls: private key does not match public key") :=
  ⟨rfl, by decide, by decide,
    CreateTLSConfig_keyPairError toyLib tlsOn "db.internal" "/etc/ca.pem"
      { CertPath := "/etc/client.crt", KeyPath := "/etc/other.key" } toyWorld
      "tls: private key does not match public key" [] 0 rfl (by decide) (by decide)⟩

/-- Claim C5. When the decision function returns false, `CreateTLSConfig`
reads no file: the read log after the call equals the read log before it,
whatever the CA path and the key pair. -/
theorem CreateTLSConfig_disabled_noRead (L : Stdlib σ ε Pool Cert) (f : IsTLSEnabledFn σ)
    (serverName caCertPath : String) (keyPair : Option KeyPair) (w : World σ)
    (hoff : (f w.env).1 = false) :
    (CreateTLSConfig L f serverName caCertPath keyPair w).2.reads = w.reads := by
  rw [CreateTLSConfig_off L f serverName caCertPath keyPair w hoff]

/-- Witness of C5: TLS disabled, with a CA bundle and a key pair that exist. -/
theorem CreateTLSConfig_disabled_noRead_witness :
    (tlsOff toyWorld.env).1 = false ∧
    (CreateTLSConfig toyLib tlsOff "db.internal" "/etc/ca.pem"
        (some { CertPath := "/etc/client.crt", KeyPath := "/etc/client.key" })
        toyWorld).2.reads = toyWorld.reads :=
  ⟨rfl, CreateTLSConfig_disabled_noRead toyLib tlsOff "db.internal" "/etc/ca.pem"
    (some { CertPath := "/etc/client.crt", KeyPath := "/etc/client.key" }) toyWorld rfl⟩

/-- Claim C6. For every input and environment, whenever the error returned by
`CreateTLSConfig` is non-nil the returned configuration is nil. -/
theorem CreateTLSConfig_error_noConfig (L : Stdlib σ ε Pool Cert) (f : IsTLSEnabledFn σ)
    (serverName caCertPath : String) (keyPair : Option KeyPair) (w : World σ) :
    (CreateTLSConfig L f serverName caCertPath keyPair w).1.2 ≠ none →
      (CreateTLSConfig L f serverName caCertPath keyPair w).1.1 = none := by
  rcases hb : (f w.env).1 with _ | _
  · rw [CreateTLSConfig_off L f serverName caCertPath keyPair w hb]
    simp
  · rcases hr : (L.readFile (f w.env).2 caCertPath).2 with _ | e
    · cases keyPair with
      | none =>
        rw [CreateTLSConfig_noKeyPair L f serverName caCertPath w hb hr]
        simp
      | some kp =>
        rw [CreateTLSConfig_keyPair L f serverName caCertPath kp w hb hr]
        rcases (LoadX509KeyPair L kp.CertPath kp.KeyPath
            { env := (f w.env).2, reads := w.reads ++ [caCertPath], calls := w.calls + 1 }).1
          with ⟨c, _ | e0⟩ <;> simp
    · rw [CreateTLSConfig_caFail L f serverName caCertPath keyPair w e hb hr]
      simp

/-- Witness of C6: a key pair that fails to load gives an error and no configuration. -/
theorem CreateTLSConfig_error_noConfig_witness :
    (CreateTLSConfig toyLib tlsOn "db.internal" "/etc/ca.pem"
        (some { CertPath := "/etc/client.crt", KeyPath := "/nope/c.key" }) toyWorld).1.2 ≠ none ∧
    (CreateTLSConfig toyLib tlsOn "db.internal" "/etc/ca.pem"
        (some { CertPath := "/etc/client.crt", KeyPath := "/nope/c.key" }) toyWorld).1.1 = none :=
  ⟨by decide, CreateTLSConfig_error_noConfig toyLib tlsOn "db.internal" "/etc/ca.pem"
    (some { CertPath := "/etc/client.crt", KeyPath := "/nope/c.key" }) toyWorld (by decide)⟩

/-- Claim C7. The function `CreateCACertPool` returns a non-nil error if and
only if reading the file fails, and then returns a nil pool with that read
error; when the read succeeds it returns a nil error and the pool obtained by
appending the file content to a new empty pool, for every content; in
particular, for content from which the library appends nothing to the empty
pool, the returned pool is the empty pool and the error is nil. -/
theorem CreateCACertPool_spec (L : Stdlib σ ε Pool Cert) (path : String) (w : World σ) :
    ((CreateCACertPool L path w).1.2 ≠ none ↔ (L.readFile w.env path).2 ≠ none) ∧
    (∀ e, (L.readFile w.env path).2 = some e →
      (CreateCACertPool L path w).1 = (none, some e)) ∧
    ((L.readFile w.env path).2 = none →
      (CreateCACertPool L path w).1 =
        (some (L.appendCertsFromPEM L.newCertPool (L.readFile w.env path).1).1, none)) ∧
    ((L.readFile w.env path).2 = none →
      L.appendCertsFromPEM L.newCertPool (L.readFile w.env path).1 = (L.newCertPool, false) →
      (CreateCACertPool L path w).1 = (some L.newCertPool, none)) := by
  rw [CreateCACertPool_eq]
  rcases hr : (L.readFile w.env path).2 with _ | e
  · refine ⟨by simp, by simp, by simp, ?_⟩
    intro _ happ
    simp [happ]
  · simp

/-- Witness of C7: a readable file without any certificate gives the empty
pool and no error; a missing file gives the read error and no pool. -/
theorem CreateCACertPool_spec_witness :
    (CreateCACertPool toyLib "/etc/empty.pem" toyWorld).1 = (some toyLib.newCertPool, none) ∧
    (CreateCACertPool toyLib "/nope/ca.pem" toyWorld).1 =
      (none, some "open /nope/ca.pem: no such file or directory") :=
  ⟨(CreateCACertPool_spec toyLib "/etc/empty.pem" toyWorld).2.2.2 (by decide) (by decide),
   (CreateCACertPool_spec toyLib "/nope/ca.pem" toyWorld).2.1
      "open /nope/ca.pem: no such file or directory" (by decide)⟩

/-- Claim C8. When the decision function returns true, the CA bundle is read
without error, and a key pair is given whose loading succeeds with identity
`c`, `CreateTLSConfig` returns a nil error and a configuration whose
`Certificates` is the one-element list of `c`, whose `RootCAs` is the pool
loaded by `CreateCACertPool`, whose `ServerName` is the argument and whose
`InsecureSkipVerify` is false. -/
theorem CreateTLSConfig_enabled_keyPair (L : Stdlib σ ε Pool Cert) (f : IsTLSEnabledFn σ)
    (serverName caCertPath : String) (kp : KeyPair) (w : World σ) (c : Cert)
    (rs : List String) (n : Nat)
    (hon : (f w.env).1 = true)
    (hread : (L.readFile (f w.env).2 caCertPath).2 = none)
    (hload : (LoadX509KeyPair L kp.CertPath kp.KeyPath
                { env := (f w.env).2, reads := rs, calls := n }).1 = (c, none)) :
    (CreateTLSConfig L f serverName caCertPath (some kp) w).1 =
      (some { RootCAs := (CreateCACertPool L caCertPath
                            { env := (f w.env).2, reads := rs, calls := n }).1.1,
              ServerName := serverName, Certificates := [c],
              InsecureSkipVerify := false }, none) := by
  rw [CreateTLSConfig_keyPair L f serverName caCertPath kp w hon hread]
  rw [LoadX509KeyPair_result_env L kp.CertPath kp.KeyPath
        { env := (f w.env).2, reads := rs, calls := n }
        { env := (f w.env).2, reads := w.reads ++ [caCertPath], calls := w.calls + 1 } rfl]
    at hload
  simp [hload, CreateCACertPool_eq, hread]

/-- Witness of C8: TLS enabled, a readable CA bundle and a matching key pair. -/
theorem CreateTLSConfig_enabled_keyPair_witness :
    (tlsOn toyWorld.env).1 = true ∧
    (toyLib.readFile (tlsOn toyWorld.env).2 "/etc/ca.pem").2 = none ∧
    (LoadX509KeyPair toyLib "/etc/client.crt" "/etc/client.key"
        { env := (tlsOn toyWorld.env).2, reads := [], calls := 0 }).1 =
      (([7, 7], [7, 7]), none) ∧
    (CreateTLSConfig toyLib tlsOn "db.internal" "/etc/ca.pem"
        (some { CertPath := "/etc/client.crt", KeyPath := "/etc/client.key" }) toyWorld).1 =
      (some { RootCAs := (CreateCACertPool toyLib "/etc/ca.pem"
                            { env := (tlsOn toyWorld.env).2, reads := [], calls := 0 }).1.1,
              ServerName := "db.internal", Certificates := [([7, 7], [7, 7])],
              InsecureSkipVerify := false }, none) :=
  ⟨rfl, by decide, by decide,
    CreateTLSConfig_enabled_keyPair toyLib tlsOn "db.internal" "/etc/ca.pem"
      { CertPath := "/etc/client.crt", KeyPath := "/etc/client.key" } toyWorld
      ([7, 7], [7, 7]) [] 0 rfl (by decide) (by decide)⟩

/-- Claim C9. In every call of `CreateTLSConfig`, on every path, the decision
function is evaluated exactly once: the invocation count grows by exactly 1
and the environment is the one left by a single run of the callback. -/
theorem CreateTLSConfig_callback_once (L : Stdlib σ ε Pool Cert) (f : IsTLSEnabledFn σ)
    (serverName caCertPath : String) (keyPair : Option KeyPair) (w : World σ) :
    (CreateTLSConfig L f serverName caCertPath keyPair w).2.calls = w.calls + 1 ∧
    (CreateTLSConfig L f serverName caCertPath keyPair w).2.env = (f w.env).2 := by
  rcases hb : (f w.env).1 with _ | _
  · rw [CreateTLSConfig_off L f serverName caCertPath keyPair w hb]
    exact ⟨rfl, rfl⟩
  · rcases hr : (L.readFile (f w.env).2 caCertPath).2 with _ | e
    · cases keyPair with
      | none =>
        rw [CreateTLSConfig_noKeyPair L f serverName caCertPath w hb hr]
        exact ⟨rfl, rfl⟩
      | some kp =>
        rw [CreateTLSConfig_keyPair L f serverName caCertPath kp w hb hr]
        have hframe := LoadX509KeyPair_frame L kp.CertPath kp.KeyPath
          { env := (f w.env).2, reads := w.reads ++ [caCertPath], calls := w.calls + 1 }
        exact ⟨hframe.2, hframe.1⟩
    · rw [CreateTLSConfig_caFail L f serverName caCertPath keyPair w e hb hr]
      exact ⟨rfl, rfl⟩

/-- Claim C10. The CA bundle is loaded before the key pair: when the decision
function returns true and reading the CA bundle fails with error `e`, the
returned error is `e`, no configuration is returned, and the only file read
is the CA bundle (the read log grows by the CA path alone), whatever the key
pair. -/
theorem CreateTLSConfig_caError_before_keyPair (L : Stdlib σ ε Pool Cert)
    (f : IsTLSEnabledFn σ) (serverName caCertPath : String) (keyPair : Option KeyPair)
    (w : World σ) (e : ε)
    (hon : (f w.env).1 = true)
    (hread : (L.readFile (f w.env).2 caCertPath).2 = some e) :
    (CreateTLSConfig L f serverName caCertPath keyPair w).1 = (none, some e) ∧
    (CreateTLSConfig L f serverName caCertPath keyPair w).2.reads =
      w.reads ++ [caCertPath] := by
  rw [CreateTLSConfig_caFail L f serverName caCertPath keyPair w e hon hread]
  exact ⟨rfl, rfl⟩

/-- Witness of C10: the CA bundle is missing and the key pair is missing too;
the error is that of the CA bundle and the key pair paths are not read. -/
theorem CreateTLSConfig_caError_before_keyPair_witness :
    (tlsOn toyWorld.env).1 = true ∧
    (toyLib.readFile (tlsOn toyWorld.env).2 "/nope/ca.pem").2 =
      some "open /nope/ca.pem: no such file or directory" ∧
    (CreateTLSConfig toyLib tlsOn "db.internal" "/nope/ca.pem"
        (some { CertPath := "/nope/c.crt", KeyPath := "/nope/c.key" }) toyWorld).1 =
      (none, some "open /nope/ca.pem: no such file or directory") ∧
    (CreateTLSConfig toyLib tlsOn "db.internal" "/nope/ca.pem"
        (some { CertPath := "/nope/c.crt", KeyPath := "/nope/c.key" }) toyWorld).2.reads =
      toyWorld.reads ++ ["/nope/ca.pem"] :=
  ⟨rfl, by decide,
    CreateTLSConfig_caError_before_keyPair toyLib tlsOn "db.internal" "/nope/ca.pem"
      (some { CertPath := "/nope/c.crt", KeyPath := "/nope/c.key" }) toyWorld
      "open /nope/ca.pem: no such file or directory" rfl (by decide)⟩

end Claims

end EtcdWrapper.Util
